import Mathlib

/-!
Verification development for the NewTokenBUYAlert repository.

The repository is a set of Python scripts that watch Solana wallets,
classify parsed transaction records as "new token" events, extract a token
candidate from the post-transaction balances, and alert at most once per
token via a persisted dedup ledger.

The Python functions operate on JSON-like dynamic values and wrap their
bodies in `try/except` blocks that turn any runtime error into a negative
result.  We embed that faithfully: `Json` is the dynamic value type,
helpers such as `pyGet` model the corresponding Python primitive including
the dynamic-type errors it can raise (`PyResult` is the exception monad),
and every embedded function mirrors its Python source line by line.
-/

/-- A JSON-like dynamic value, the input type of the Python functions.
Python numbers are modelled as exact rationals. -/
inductive Json where
  | null : Json
  | bool : Bool → Json
  | num  : Rat → Json
  | str  : String → Json
  | arr  : List Json → Json
  | obj  : List (String × Json) → Json

/-- Result of evaluating a fragment of Python code: either a value or a
raised exception (all exception details are irrelevant, the sources catch
every `Exception` alike). -/
abbrev PyResult (α : Type) := Except Unit α

/-- Sequencing of possibly-raising Python evaluation steps. -/
def pyBind {α β : Type} : PyResult α → (α → PyResult β) → PyResult β
  | .ok a, f => f a
  | .error e, _ => .error e

/-- Python truthiness of a value (`if x:`). -/
def pyTruthy : Json → Bool
  | .null => false
  | .bool b => b
  | .num q => !(q == 0)
  | .str s => !(s == "")
  | .arr l => !l.isEmpty
  | .obj o => !o.isEmpty

/-- Key lookup in an object, modelling Python `dict` access. -/
def lookupKey (o : List (String × Json)) (k : String) : Option Json :=
  match o.find? (fun p => p.1 == k) with
  | some p => some p.2
  | none => none

/-- `j.get(k, d)`: defaulted lookup, raising unless `j` is a dict. -/
def pyGet (j : Json) (k : String) (d : Json) : PyResult Json :=
  match j with
  | .obj o => .ok ((lookupKey o k).getD d)
  | _ => .error ()

/-- `j[k]` with a string key: raises on a missing key or a non-dict. -/
def pyItemStr (j : Json) (k : String) : PyResult Json :=
  match j with
  | .obj o =>
    match lookupKey o k with
    | some v => .ok v
    | none => .error ()
  | _ => .error ()

/-- Python `==` between a dynamic value and a string literal: true only
for the equal string (no Python type coerces equal to a `str`). -/
def Json.eqStr : Json → String → Bool
  | .str t, s => t == s
  | _, _ => false

/-- Python `==` between hashable atoms; numbers and booleans compare
cross-type (`True == 1`), strings only to strings. -/
def Json.pyEqAtom : Json → Json → Bool
  | .null, .null => true
  | .bool a, .bool b => a == b
  | .bool a, .num q => ((if a then (1 : Rat) else 0) == q)
  | .num q, .bool a => (q == (if a then (1 : Rat) else 0))
  | .num a, .num b => a == b
  | .str a, .str b => a == b
  | _, _ => false

/-- Whether `pre` occurs at the head of `l`. -/
def charPrefix : List Char → List Char → Bool
  | [], _ => true
  | _ :: _, [] => false
  | a :: as, b :: bs => a == b && charPrefix as bs

/-- Whether `needle` occurs contiguously inside `hay` (Python `sub in s`). -/
def containsSub (needle : List Char) : List Char → Bool
  | [] => charPrefix needle []
  | c :: cs => charPrefix needle (c :: cs) || containsSub needle cs

/-- `k in j`: key test on dicts, element equality on lists, substring test
on strings; raises on non-containers. -/
def pyInStr (k : String) (j : Json) : PyResult Bool :=
  match j with
  | .obj o => .ok ((lookupKey o k).isSome)
  | .arr l => .ok (l.any (fun e => e.eqStr k))
  | .str s => .ok (containsSub k.data s.data)
  | _ => .error ()

/-- `len(j)`: raises on unsized values. -/
def pyLen : Json → PyResult Nat
  | .arr l => .ok l.length
  | .obj o => .ok o.length
  | .str s => .ok s.length
  | _ => .error ()

/-- `for x in j`: the sequence of iterated values (dicts yield their keys,
strings their one-character substrings); raises on non-iterables. -/
def pyIterList : Json → PyResult (List Json)
  | .arr l => .ok l
  | .obj o => .ok (o.map (fun p => .str p.1))
  | .str s => .ok (s.data.map (fun c => .str (String.mk [c])))
  | _ => .error ()

/-- Numeric coercion used by Python order comparisons against a number:
booleans count as 0/1, anything non-numeric raises `TypeError`. -/
def pyNumVal : Json → PyResult Rat
  | .num q => .ok q
  | .bool b => .ok (if b then 1 else 0)
  | _ => .error ()

/-- The result the `except` handler produces: any raised error becomes the
given default. -/
def pyCatch {α : Type} (r : PyResult α) (dflt : α) : α :=
  match r with
  | .ok a => a
  | .error _ => dflt

namespace BotPy

/-- The SPL token program address tested against `owner` in `bot.py`. -/
def tokenkegAddr : String := "TokenkegQfeZyiNwAJbNbGKPFXCWuBvf9Ss623VQ5DA"

/-- `priority_token_types` from `bot.py` (lines 286-292). -/
def priority_token_types : List String :=
  ["createTokenAccount", "createAccount", "initializeAccount",
   "initializeAccount2", "initializeAccount3"]

/-- `secondary_token_types` from `bot.py` (lines 295-300). -/
def secondary_token_types : List String :=
  ["initializeMint", "initializeMint2", "mintTo", "mintToChecked"]

/-- `associated_token_types` from `bot.py` (lines 302-305). -/
def associated_token_types : List String :=
  ["create", "createIdempotent"]

/-- The per-instruction condition of `is_new_token_created` in `bot.py`:
the five `if` branches checked (in order) for every top-level and inner
instruction (lines 316-342 and 359-385); each branch returns `True`, so
their ordered disjunction is the match condition. -/
def instrMatch (program_id instruction_type : Json) : Bool :=
  (program_id.eqStr "spl-token" &&
    priority_token_types.any (fun s => instruction_type.eqStr s)) ||
  (program_id.eqStr "spl-token" &&
    secondary_token_types.any (fun s => instruction_type.eqStr s)) ||
  (program_id.eqStr "spl-associated-token-account" &&
    associated_token_types.any (fun s => instruction_type.eqStr s)) ||
  (program_id.eqStr "spl-token" && pyTruthy instruction_type) ||
  (program_id.eqStr "spl-associated-token-account" && pyTruthy instruction_type)

/-- The top-level instruction loop of `bot.py` `is_new_token_created`
(lines 308-342): first matching instruction returns `True`. -/
def scanOuter : List Json → PyResult Bool
  | [] => .ok false
  | instr :: rest =>
    pyBind (pyGet instr "program" (.str "")) fun program_id =>
    pyBind (pyGet instr "parsed" (.obj [])) fun parsed =>
    pyBind (pyGet parsed "type" (.str "")) fun instruction_type =>
    if instrMatch program_id instruction_type then .ok true else scanOuter rest

/-- The inner-instruction loop of `bot.py` (lines 350-393): the same five
checks plus the `system createAccount` owner check (lines 387-393). -/
def scanInnerInstrs : List Json → PyResult Bool
  | [] => .ok false
  | instr :: rest =>
    pyBind (pyGet instr "program" (.str "")) fun program_id =>
    pyBind (pyGet instr "parsed" (.obj [])) fun parsed =>
    pyBind (pyGet parsed "type" (.str "")) fun instruction_type =>
    if instrMatch program_id instruction_type then .ok true
    else if program_id.eqStr "system" && instruction_type.eqStr "createAccount" then
      pyBind (pyGet parsed "info" (.obj [])) fun parsed_info =>
      pyBind (pyGet parsed_info "owner" (.str "")) fun owner =>
      pyBind (pyInStr tokenkegAddr owner) fun hit =>
      if hit then .ok true else scanInnerInstrs rest
    else scanInnerInstrs rest

/-- The loop over `meta['innerInstructions']` groups (lines 350-351). -/
def scanInnerGroups : List Json → PyResult Bool
  | [] => .ok false
  | g :: rest =>
    pyBind (pyGet g "instructions" (.arr [])) fun instrsJ =>
    pyBind (pyIterList instrsJ) fun instrs =>
    pyBind (scanInnerInstrs instrs) fun hit =>
    if hit then .ok true else scanInnerGroups rest

/-- The positive-balance loop of `bot.py` (lines 404-408):
`if ui_amount and ui_amount > 0: return True`. -/
def scanBalances : List Json → PyResult Bool
  | [] => .ok false
  | balance :: rest =>
    pyBind (pyGet balance "uiTokenAmount" (.obj [])) fun uiTok =>
    pyBind (pyGet uiTok "uiAmount" (.num 0)) fun ui_amount =>
    if pyTruthy ui_amount then
      pyBind (pyNumVal ui_amount) fun v =>
      if 0 < v then .ok true else scanBalances rest
    else scanBalances rest

/-- The `try` body of `SolanaWalletMonitor.is_new_token_created`
(`bot.py` lines 273-410). -/
def is_new_token_createdE (transaction : Json) : PyResult Bool :=
  if !pyTruthy transaction then .ok false else
  pyBind (pyInStr "transaction" transaction) fun hasTx =>
  if !hasTx then .ok false else
  pyBind (pyItemStr transaction "transaction") fun transaction_data =>
  pyBind (pyGet transaction_data "message" (.obj [])) fun message =>
  pyBind (pyGet message "instructions" (.arr [])) fun instructionsJ =>
  pyBind (pyIterList instructionsJ) fun instructions =>
  pyBind (scanOuter instructions) fun hitOuter =>
  if hitOuter then .ok true else
  pyBind (pyGet transaction "meta" (.obj [])) fun meta =>
  pyBind (pyGet meta "innerInstructions" (.arr [])) fun innerJ =>
  pyBind (pyIterList innerJ) fun innerGroups =>
  pyBind (scanInnerGroups innerGroups) fun hitInner =>
  if hitInner then .ok true else
  pyBind (pyGet meta "preTokenBalances" (.arr [])) fun preJ =>
  pyBind (pyGet meta "postTokenBalances" (.arr [])) fun postJ =>
  pyBind (pyLen preJ) fun lenPre =>
  pyBind (pyLen postJ) fun lenPost =>
  if lenPre < lenPost then .ok true else
  pyBind (pyIterList postJ) fun postList =>
  scanBalances postList

/-- `SolanaWalletMonitor.is_new_token_created` from `bot.py` lines
273-413: the `try` body with the `except` clause returning `False`. -/
def is_new_token_created (transaction : Json) : Bool :=
  pyCatch (is_new_token_createdE transaction) false

/-- The balance loop of `extract_new_token_info` (`bot.py` lines 425-435,
identical in `m.py` lines 153-163): `mint = balance['mint']` (raises on a
missing key), then return the first entry with
`ui_amount is not None and ui_amount > 0` packaged as a candidate dict. -/
def extractScan : List Json → PyResult (Option Json)
  | [] => .ok none
  | balance :: rest =>
    pyBind (pyItemStr balance "mint") fun mint =>
    pyBind (pyGet balance "uiTokenAmount" (.obj [])) fun uiTok =>
    pyBind (pyGet uiTok "uiAmount" (.num 0)) fun ui_amount =>
    match ui_amount with
    | .null => extractScan rest
    | v =>
      pyBind (pyNumVal v) fun q =>
      if 0 < q then
        pyBind (pyGet uiTok "amount" (.str "0")) fun amount =>
        pyBind (pyGet uiTok "decimals" (.num 0)) fun decimals =>
        .ok (some (Json.obj
          [("mint", mint), ("amount", amount),
           ("decimals", decimals), ("ui_amount", v)]))
      else extractScan rest

/-- The `try` body of `extract_new_token_info` (`bot.py` lines 417-437). -/
def extract_new_token_infoE (transaction : Json) : PyResult (Option Json) :=
  if !pyTruthy transaction then .ok none else
  pyBind (pyInStr "meta" transaction) fun hasMeta =>
  if !hasMeta then .ok none else
  pyBind (pyItemStr transaction "meta") fun meta =>
  pyBind (pyGet meta "postTokenBalances" (.arr [])) fun postJ =>
  pyBind (pyIterList postJ) fun postList =>
  extractScan postList

/-- `SolanaWalletMonitor.extract_new_token_info` from `bot.py` lines
415-441 (the same code appears verbatim in `m.py` lines 143-169): the
`try` body with the `except` clause returning `None`. -/
def extract_new_token_info (transaction : Json) : Option Json :=
  pyCatch (extract_new_token_infoE transaction) none

end BotPy

namespace SimplePy

/-- The per-instruction condition shared, character for character, by
`m.py` `is_new_token_created` (lines 91-105) and `new_launch_bot.py`
`is_new_token_launch` (lines 93-108): a four-element `spl-token`
create/initialize set plus the two associated-token-account operations.
Note `initializeAccount2` is NOT in this variant's set. -/
def simpleMatch (program_id instruction_type : Json) : Bool :=
  (program_id.eqStr "spl-token" &&
    ["createAccount", "createTokenAccount", "initializeAccount",
     "initializeAccount3"].any (fun s => instruction_type.eqStr s)) ||
  (program_id.eqStr "spl-associated-token-account" &&
    ["create", "createIdempotent"].any (fun s => instruction_type.eqStr s))

/-- Top-level instruction loop shared by `m.py` (lines 83-105) and
`new_launch_bot.py` (lines 85-108). -/
def simpleScanOuter : List Json → PyResult Bool
  | [] => .ok false
  | instr :: rest =>
    pyBind (pyGet instr "program" (.str "")) fun program_id =>
    pyBind (pyGet instr "parsed" (.obj [])) fun parsed =>
    pyBind (pyGet parsed "type" (.str "")) fun instruction_type =>
    if simpleMatch program_id instruction_type then .ok true
    else simpleScanOuter rest

/-- Inner-instruction group loop shared by `m.py` (lines 113-136) and
`new_launch_bot.py` (lines 114-136): same condition as the outer loop. -/
def simpleScanInnerGroups : List Json → PyResult Bool
  | [] => .ok false
  | g :: rest =>
    pyBind (pyGet g "instructions" (.arr [])) fun instrsJ =>
    pyBind (pyIterList instrsJ) fun instrs =>
    pyBind (simpleScanOuter instrs) fun hit =>
    if hit then .ok true else simpleScanInnerGroups rest

/-- The `try` body shared by `m.py` `is_new_token_created` (lines 72-138)
and `new_launch_bot.py` `is_new_token_launch` (lines 74-138): instruction
scan only, no balance heuristics, final `return False`. -/
def simpleClassifierE (transaction : Json) : PyResult Bool :=
  if !pyTruthy transaction then .ok false else
  pyBind (pyInStr "transaction" transaction) fun hasTx =>
  if !hasTx then .ok false else
  pyBind (pyItemStr transaction "transaction") fun transaction_data =>
  pyBind (pyGet transaction_data "message" (.obj [])) fun message =>
  pyBind (pyGet message "instructions" (.arr [])) fun instructionsJ =>
  pyBind (pyIterList instructionsJ) fun instructions =>
  pyBind (simpleScanOuter instructions) fun hitOuter =>
  if hitOuter then .ok true else
  pyBind (pyGet transaction "meta" (.obj [])) fun meta =>
  pyBind (pyGet meta "innerInstructions" (.arr [])) fun innerJ =>
  pyBind (pyIterList innerJ) fun innerGroups =>
  simpleScanInnerGroups innerGroups

end SimplePy

namespace MPy

/-- `SolanaWalletMonitor.is_new_token_created` from `m.py` lines 70-141;
its `try` body is character-identical to `new_launch_bot.py`'s
`is_new_token_launch` and is embedded once as `SimplePy.simpleClassifierE`. -/
def is_new_token_created (transaction : Json) : Bool :=
  pyCatch (SimplePy.simpleClassifierE transaction) false

end MPy

namespace NewLaunchBot

/-- `NewLaunchMonitor.is_new_token_launch` from `new_launch_bot.py` lines
72-141; the `try` body is character-identical to `m.py`'s
`is_new_token_created` and is embedded once as `SimplePy.simpleClassifierE`. -/
def is_new_token_launch (transaction : Json) : Bool :=
  pyCatch (SimplePy.simpleClassifierE transaction) false

/-- The set comprehension `{balance['mint'] for balance in pre_token_balances}`
(`new_launch_bot.py` line 157, `final_bot.py` line 110): collects every
entry's `'mint'`, raising on a missing key. -/
def collectMints : List Json → PyResult (List Json)
  | [] => .ok []
  | b :: rest =>
    pyBind (pyItemStr b "mint") fun m =>
    pyBind (collectMints rest) fun ms =>
    .ok (m :: ms)

/-- The first loop of `new_launch_bot.py` `extract_new_token_info`
(lines 159-173): the first post entry whose mint is not in
`existing_mints` and whose `ui_amount` is non-`None` and positive. -/
def nlFirstLoop (existing : List Json) : List Json → PyResult (Option Json)
  | [] => .ok none
  | balance :: rest =>
    pyBind (pyItemStr balance "mint") fun mint =>
    pyBind (pyGet balance "uiTokenAmount" (.obj [])) fun uiTok =>
    pyBind (pyGet uiTok "uiAmount" (.num 0)) fun ui_amount =>
    if existing.any (fun e => e.pyEqAtom mint) then nlFirstLoop existing rest
    else
      match ui_amount with
      | .null => nlFirstLoop existing rest
      | v =>
        pyBind (pyNumVal v) fun q =>
        if 0 < q then
          pyBind (pyGet uiTok "amount" (.str "0")) fun amount =>
          pyBind (pyGet uiTok "decimals" (.num 0)) fun decimals =>
          .ok (some (Json.obj
            [("mint", mint), ("amount", amount),
             ("decimals", decimals), ("ui_amount", v)]))
        else nlFirstLoop existing rest

/-- The `try` body of `NewLaunchMonitor.extract_new_token_info`
(`new_launch_bot.py` lines 145-191): novelty-first loop, then the
fallback loop over the first positive balance (lines 178-189), which is
the same loop as `bot.py`'s `extractScan`. -/
def extract_new_token_infoE (transaction : Json) : PyResult (Option Json) :=
  if !pyTruthy transaction then .ok none else
  pyBind (pyInStr "meta" transaction) fun hasMeta =>
  if !hasMeta then .ok none else
  pyBind (pyItemStr transaction "meta") fun meta =>
  pyBind (pyGet meta "preTokenBalances" (.arr [])) fun preJ =>
  pyBind (pyGet meta "postTokenBalances" (.arr [])) fun postJ =>
  pyBind (pyLen preJ) fun _ =>
  pyBind (pyLen postJ) fun _ =>
  pyBind (pyIterList preJ) fun preList =>
  pyBind (collectMints preList) fun existing =>
  pyBind (pyIterList postJ) fun postList =>
  pyBind (nlFirstLoop existing postList) fun r =>
  match r with
  | some c => .ok (some c)
  | none => BotPy.extractScan postList

/-- `NewLaunchMonitor.extract_new_token_info` from `new_launch_bot.py`
lines 143-195: the `try` body with the `except` clause returning `None`. -/
def extract_new_token_info (transaction : Json) : Option Json :=
  pyCatch (extract_new_token_infoE transaction) none

end NewLaunchBot

namespace FinalBot

/-- List/string subscription with a dynamic numeric index
(`account_keys[program_id_index]` in `final_bot.py` line 84): requires an
integral index, supports Python's negative-index wrap, raises otherwise. -/
def pySubscriptNum (container idx : Json) : PyResult Json :=
  pyBind
    (match idx with
     | .num q => if q.den == 1 then .ok q.num else .error ()
     | .bool b => .ok (if b then 1 else 0)
     | _ => .error ()) fun i =>
  match container with
  | .arr l =>
    let j := if i < 0 then i + l.length else i
    match l.get? j.toNat with
    | some v => if 0 ≤ j then .ok v else .error ()
    | none => .error ()
  | .str s =>
    let j := if i < 0 then i + s.length else i
    match s.data.get? j.toNat with
    | some c => if 0 ≤ j then .ok (Json.str (String.mk [c])) else .error ()
    | none => .error ()
  | _ => .error ()

/-- The instruction loop of `final_bot.py` `is_new_token_created`
(lines 78-91): read `programIdIndex` (default -1); if non-negative and in
range of `message['accountKeys']`, compare the resolved key against the
token program address and return `True` when `data` is a non-empty
truthy value. -/
def fbScan (message : Json) : List Json → PyResult Bool
  | [] => .ok false
  | instr :: rest =>
    pyBind (pyGet instr "programIdIndex" (.num (-1))) fun idxJ =>
    pyBind (pyNumVal idxJ) fun idxV =>
    if 0 ≤ idxV then
      pyBind (pyGet message "accountKeys" (.arr [])) fun accountKeysJ =>
      pyBind (pyLen accountKeysJ) fun len =>
      if idxV < (len : Rat) then
        pyBind (pySubscriptNum accountKeysJ idxJ) fun program_id =>
        if program_id.eqStr BotPy.tokenkegAddr then
          pyBind (pyGet instr "data" (.str "")) fun dataJ =>
          if pyTruthy dataJ then
            pyBind (pyLen dataJ) fun dlen =>
            if 0 < dlen then .ok true else fbScan message rest
          else fbScan message rest
        else fbScan message rest
      else fbScan message rest
    else fbScan message rest

/-- The `try` body of `final_bot.py` `is_new_token_created`
(lines 69-93). -/
def is_new_token_createdE (transaction : Json) : PyResult Bool :=
  if !pyTruthy transaction then .ok false else
  pyBind (pyInStr "transaction" transaction) fun hasTx =>
  if !hasTx then .ok false else
  pyBind (pyItemStr transaction "transaction") fun transaction_data =>
  pyBind (pyGet transaction_data "message" (.obj [])) fun message =>
  pyBind (pyGet message "instructions" (.arr [])) fun instructionsJ =>
  pyBind (pyIterList instructionsJ) fun instructions =>
  fbScan message instructions

/-- `SolanaWalletMonitor.is_new_token_created` from `final_bot.py` lines
67-96: the `try` body with the `except` clause returning `False`. -/
def is_new_token_created (transaction : Json) : Bool :=
  pyCatch (is_new_token_createdE transaction) false

/-- The `new_tokens` accumulation loop of `final_bot.py`
`extract_token_info` (lines 112-119): every post entry whose mint is not
in `existing_mints`, with no positivity requirement. -/
def fbExtractLoop (existing : List Json) : List Json → PyResult (List Json)
  | [] => .ok []
  | balance :: rest =>
    pyBind (pyItemStr balance "mint") fun mint =>
    if existing.any (fun e => e.pyEqAtom mint) then fbExtractLoop existing rest
    else
      pyBind (pyGet balance "uiTokenAmount" (.obj [])) fun uiTok =>
      pyBind (pyGet uiTok "amount" (.str "0")) fun amount =>
      pyBind (pyGet uiTok "decimals" (.num 0)) fun decimals =>
      pyBind (fbExtractLoop existing rest) fun restL =>
      .ok (Json.obj [("mint", mint), ("amount", amount),
                     ("decimals", decimals)] :: restL)

/-- The `try` body of `final_bot.py` `extract_token_info`
(lines 100-121): `return new_tokens[0] if new_tokens else None`. -/
def extract_token_infoE (transaction : Json) : PyResult (Option Json) :=
  if !pyTruthy transaction then .ok none else
  pyBind (pyInStr "meta" transaction) fun hasMeta =>
  if !hasMeta then .ok none else
  pyBind (pyItemStr transaction "meta") fun meta =>
  pyBind (pyGet meta "preTokenBalances" (.arr [])) fun preJ =>
  pyBind (pyGet meta "postTokenBalances" (.arr [])) fun postJ =>
  pyBind (pyIterList preJ) fun preList =>
  pyBind (NewLaunchBot.collectMints preList) fun existing =>
  pyBind (pyIterList postJ) fun postList =>
  pyBind (fbExtractLoop existing postList) fun newTokens =>
  .ok newTokens.head?

/-- `SolanaWalletMonitor.extract_token_info` from `final_bot.py` lines
98-125: the `try` body with the `except` clause returning `None`. -/
def extract_token_info (transaction : Json) : Option Json :=
  pyCatch (extract_token_infoE transaction) none

end FinalBot

namespace MainPy

/-- `token_exists` from `main.py` lines 33-39: the `detected_tokens`
table (with a UNIQUE `mint` column) is modelled as the list of stored
mints; the `SELECT 1 ... WHERE mint=?` probe is membership. -/
def token_exists (db : List String) (mint : String) : Bool :=
  db.contains mint

/-- `save_token` from `main.py` lines 41-46: `INSERT OR IGNORE` against
the UNIQUE `mint` column appends only when the key is absent. -/
def save_token (db : List String) (mint : String) : List String :=
  if db.contains mint then db else db ++ [mint]

/-- The ledger's test-and-set as exercised by the webhook (`main.py`
lines 100-101, `if not token_exists(mint): save_token(mint)`) and by the
`INSERT OR IGNORE` row-change semantics: returns whether the key was
newly inserted, together with the updated table. -/
def insert_if_absent (db : List String) (mint : String) : Bool × List String :=
  (!(token_exists db mint), save_token db mint)

/-- One webhook transfer for the target wallet (`main.py` lines 100-103):
alert exactly when the mint is not yet in the table, saving it first.
Returns the updated table and the list of alerted mints. -/
def processTransfer (db : List String) (mint : String) : List String × List String :=
  if !(token_exists db mint) then (save_token db mint, [mint]) else (db, [])

end MainPy

namespace BotPyDb

/-- `SolanaWalletMonitor.is_token_processed` from `bot.py` lines 62-85,
abstracted over the storage layer: the argument is the outcome of the
`SELECT COUNT(*) ... WHERE token_name = ? AND mint_address = ?` probe
(`.error` when the sqlite layer raises anywhere in the `try` block).
The `except` clause returns `False`. -/
def is_token_processed (query : Except Unit Nat) : Bool :=
  match query with
  | .ok count => decide (0 < count)
  | .error _ => false

/-- `SolanaWalletMonitor.is_signature_processed` from `bot.py` lines
106-126: first probes `sqlite_master` for the `processed_signatures`
table (returning `False` when absent), then counts matching rows; any
raise in either step hits the `except` clause and returns `False`. -/
def is_signature_processed (tableCheck : Except Unit Bool)
    (query : Except Unit Nat) : Bool :=
  match tableCheck with
  | .error _ => false
  | .ok false => false
  | .ok true =>
    match query with
    | .ok count => decide (0 < count)
    | .error _ => false

end BotPyDb

/-- Python `int(str)` acceptance: optional surrounding whitespace, an
optional sign, then digits with single underscores allowed between
digits. `parseDigitsRest` consumes the digits after the first one. -/
def parseDigitsRest (acc : Nat) : List Char → Option Nat
  | [] => some acc
  | '_' :: c :: cs =>
    if c.isDigit then parseDigitsRest (acc * 10 + (c.toNat - 48)) cs else none
  | c :: cs =>
    if c.isDigit then parseDigitsRest (acc * 10 + (c.toNat - 48)) cs else none

/-- A non-empty digit string (underscore-separated), or `none`. -/
def parseDigits : List Char → Option Nat
  | [] => none
  | c :: cs => if c.isDigit then parseDigitsRest (c.toNat - 48) cs else none

/-- `int(amount)` as used by `format_amount`: `none` models the
`ValueError` caught by the bare `except`. -/
def pyParseInt (s : String) : Option Int :=
  let cs := ((s.data.dropWhile Char.isWhitespace).reverse.dropWhile
    Char.isWhitespace).reverse
  match cs with
  | '-' :: rest => (parseDigits rest).map (fun n => -(n : Int))
  | '+' :: rest => (parseDigits rest).map (fun n => (n : Int))
  | rest => (parseDigits rest).map (fun n => (n : Int))

/-- Round-half-even division, the rounding CPython applies when printing
a float with a fixed number of decimals (exact on the claim's inputs). -/
def divRoundHalfEven (a b : Int) : Int :=
  let q := Int.fdiv a b
  let r := a - q * b
  if 2 * r < b then q
  else if b < 2 * r then q + 1
  else if q % 2 == 0 then q else q + 1

/-- Insert a comma after every three characters of a reversed digit
string, modelling the `,` option of Python's format spec. -/
def groupFromRight : List Char → List Char
  | a :: b :: c :: d :: rest => a :: b :: c :: ',' :: groupFromRight (d :: rest)
  | l => l

/-- Thousands grouping of a digit string (most-significant first). -/
def groupCommas (ds : List Char) : List Char :=
  (groupFromRight ds.reverse).reverse

/-- The six fractional digits of the format `:,.6f`, zero-padded. -/
def padFrac (fp : Nat) : List Char :=
  let d := (Nat.repr fp).data
  List.replicate (6 - d.length) '0' ++ d

/-- Python `s.rstrip(c)`. -/
def pyRstrip (s : String) (c : Char) : String :=
  String.mk (s.data.reverse.dropWhile (fun x => x == c)).reverse

namespace BotPy

/-- `SolanaWalletMonitor.format_amount` from `bot.py` lines 831-838 (the
same code appears verbatim in `m.py` lines 236-243, `new_launch_bot.py`
lines 278-285 and `final_bot.py` lines 195-202): `int(amount)` divided by
`10 ** decimals`, rendered as `f"{x:,.6f}"`, then `.rstrip('0').rstrip('.')`;
any failure to parse returns the input unchanged. The float value and its
6-decimal rendering are modelled by exact rational arithmetic with
round-half-even. -/
def format_amount (amount : String) (decimals : Nat) : String :=
  match pyParseInt amount with
  | none => amount
  | some n =>
    let scaled : Int := divRoundHalfEven (n * (1000000 : Int)) ((10 : Int) ^ decimals)
    let a := scaled.natAbs
    let ip := a / 1000000
    let fp := a % 1000000
    let s := (if scaled < 0 then "-" else "")
      ++ String.mk (groupCommas (Nat.repr ip).data)
      ++ "." ++ String.mk (padFrac fp)
    pyRstrip (pyRstrip s '0') '.'

/-- A row of the `processed_tokens` table (`bot.py` lines 34-43), keyed
by the UNIQUE pair `(token_name, mint_address)`. -/
structure TokenRow where
  token_name : String
  mint_address : String
  wallet_address : String
  transaction_signature : String
  detected_at : Int
deriving DecidableEq

/-- A row of the `processed_signatures` table (`bot.py` lines 47-53). -/
structure SigRow where
  signature : String
  processed_at : Int
deriving DecidableEq

/-- The match predicate of the UNIQUE `(token_name, mint_address)` key. -/
def rowKeyIs (name mint : String) (r : TokenRow) : Bool :=
  r.token_name == name && r.mint_address == mint

/-- `is_token_processed` (`bot.py` lines 62-85) against an in-memory
model of the table: `SELECT COUNT(*) ... > 0`. -/
def is_token_processed (rows : List TokenRow) (name mint : String) : Bool :=
  decide (0 < rows.countP (rowKeyIs name mint))

/-- `mark_token_processed` (`bot.py` lines 87-104): `INSERT OR REPLACE`
on the UNIQUE `(token_name, mint_address)` key deletes any conflicting
row and inserts the fresh one. -/
def mark_token_processed (rows : List TokenRow)
    (name mint wallet sig : String) (now : Int) : List TokenRow :=
  rows.filter (fun r => !(rowKeyIs name mint r)) ++ [⟨name, mint, wallet, sig, now⟩]

/-- The default `days_to_keep` of `cleanup_old_entries` (`bot.py` line 154). -/
def default_days_to_keep : Nat := 7

/-- The cutoff `datetime('now', '-{days} days')` used by the pruning
sweep, in seconds. -/
def retentionCutoff (now : Int) (days : Nat) : Int :=
  now - (days : Int) * 86400

/-- `SolanaWalletMonitor.cleanup_old_entries` from `bot.py` lines
154-180: `DELETE FROM processed_tokens WHERE detected_at < cutoff` and
the same for `processed_signatures`. -/
def cleanup_old_entries (tokens : List TokenRow) (sigs : List SigRow)
    (cutoff : Int) : List TokenRow × List SigRow :=
  (tokens.filter (fun r => !(r.detected_at < cutoff)),
   sigs.filter (fun r => !(r.processed_at < cutoff)))

/-- The observable stages of the per-signature pipeline of
`monitor_wallets` (`bot.py` lines 1034-1073), in the order the code
reaches them. -/
inductive PipeEvent where
  | fetched
  | classifiedNeg
  | classifiedPos
  | extractedNone
  | extractedSome
  | metadataResolved
  | dedupDuplicate
  | notFirstBuySkip
  | committed
  | composed
  | dispatched
deriving DecidableEq

/-- The `'mint'` field of a candidate dict produced by
`extract_new_token_info` (read as `token_info['mint']`, line 1044). -/
def jsonStrField (j : Json) (k : String) : String :=
  match j with
  | .obj o =>
    match lookupKey o k with
    | some (.str s) => s
    | _ => ""
  | _ => ""

end BotPy

/-- A parsed instruction as produced by the `jsonParsed` transaction
encoding: the three fields the classifiers read (`program`,
`parsed.type`, `parsed.info.owner`). -/
structure Instr where
  program : String
  itype : String
  owner : String
deriving DecidableEq

/-- The JSON shape of a parsed instruction. -/
def Instr.toJson (i : Instr) : Json :=
  .obj [("program", .str i.program),
        ("parsed", .obj [("type", .str i.itype),
                         ("info", .obj [("owner", .str i.owner)])])]

/-- A token-balance entry of `preTokenBalances`/`postTokenBalances`:
mint, `uiTokenAmount.uiAmount` (possibly JSON `null`), raw amount string
and decimal count. -/
structure Balance where
  mint : String
  uiAmount : Option Rat
  amount : String
  decimals : Nat
deriving DecidableEq

/-- The JSON shape of a token-balance entry. -/
def Balance.toJson (b : Balance) : Json :=
  .obj [("mint", .str b.mint),
        ("uiTokenAmount", .obj
          [("uiAmount", match b.uiAmount with
                        | some q => .num q
                        | none => .null),
           ("amount", .str b.amount),
           ("decimals", .num b.decimals)])]

/-- A transaction record in the shape delivered by `getTransaction` with
`jsonParsed` encoding: top-level instructions, inner instruction groups,
and pre/post token-balance lists. -/
structure Txn where
  instructions : List Instr
  innerGroups : List (List Instr)
  pre : List Balance
  post : List Balance
deriving DecidableEq

/-- The JSON shape of an inner-instruction group. -/
def groupToJson (g : List Instr) : Json :=
  .obj [("instructions", .arr (g.map Instr.toJson))]

/-- The JSON shape of a transaction record. -/
def Txn.toJson (t : Txn) : Json :=
  .obj [("transaction", .obj
          [("message", .obj
            [("instructions", .arr (t.instructions.map Instr.toJson))])]),
        ("meta", .obj
          [("innerInstructions", .arr (t.innerGroups.map groupToJson)),
           ("preTokenBalances", .arr (t.pre.map Balance.toJson)),
           ("postTokenBalances", .arr (t.post.map Balance.toJson))])]

/-- All instructions of a record, top-level first, then the inner groups
in order: the scan order of the classifiers. -/
def Txn.allInstrList (t : Txn) : List Instr :=
  t.instructions ++ t.innerGroups.flatten

/-- The `bot.py` five-branch instruction condition on a structured
instruction. -/
def outerB (i : Instr) : Bool :=
  BotPy.instrMatch (.str i.program) (.str i.itype)

/-- The extra `system createAccount` owner check of `bot.py`'s inner
loop on a structured instruction. -/
def systemB (i : Instr) : Bool :=
  (i.program == "system") && (i.itype == "createAccount")
    && containsSub BotPy.tokenkegAddr.data i.owner.data

/-- The full inner-loop condition of `bot.py` on a structured instruction. -/
def innerB (i : Instr) : Bool := outerB i || systemB i

/-- The `m.py`/`new_launch_bot.py` instruction condition on a structured
instruction. -/
def simpleB (i : Instr) : Bool :=
  SimplePy.simpleMatch (.str i.program) (.str i.itype)

/-- An instruction names a token program: its program field is one of the
two token programs, or its owner field contains the token program
address. -/
def Instr.hasTokenProgramId (i : Instr) : Bool :=
  (i.program == "spl-token") || (i.program == "spl-associated-token-account")
    || containsSub BotPy.tokenkegAddr.data i.owner.data

/-- `ui_amount and ui_amount > 0`, the balance condition of `bot.py`'s
positive-balance heuristic, on a structured balance entry. -/
def balTruthy (b : Balance) : Bool :=
  match b.uiAmount with
  | some q => !(q == 0) && decide (0 < q)
  | none => false

/-- `ui_amount is not None and ui_amount > 0`, the balance condition of
the extraction loops, on a structured balance entry. -/
def balPos (b : Balance) : Bool :=
  match b.uiAmount with
  | some q => decide (0 < q)
  | none => false

/-- The candidate dict built from a balance entry by the extraction
loops of `bot.py`, `m.py` and `new_launch_bot.py`. -/
def candJson (b : Balance) : Json :=
  .obj [("mint", .str b.mint), ("amount", .str b.amount),
        ("decimals", .num b.decimals),
        ("ui_amount", .num (b.uiAmount.getD 0))]

/-- The candidate dict built by `final_bot.py`'s `extract_token_info`
(which records no `ui_amount`). -/
def candJson3 (b : Balance) : Json :=
  .obj [("mint", .str b.mint), ("amount", .str b.amount),
        ("decimals", .num b.decimals)]

/-- `balance['mint'] in existing_mints` against a structured pre-state. -/
def mintInPre (pre : List Balance) (b : Balance) : Bool :=
  pre.any (fun p => p.mint == b.mint)

namespace BotPy

/-- One pass of the per-signature pipeline of `monitor_wallets`
(`bot.py` lines 1034-1073), with the collaborator results injected:
`txDetails` is what `get_transaction_details` returned, `resolvedName`
the token name from `get_token_metadata`, `firstBuy` the verdict of
`is_first_time_buy_within_5minutes`.  Returns the ordered list of stages
reached and the updated `processed_tokens` table.  The source resolves
metadata BEFORE the dedup check (line 1042 vs 1047) and commits the
ledger row (line 1058) BEFORE composing and dispatching the alert
(lines 1069-1073). -/
def processSignature (txDetails : Option Txn) (rows : List TokenRow)
    (resolvedName : String) (firstBuy : Bool) (wallet sig : String)
    (now : Int) : List PipeEvent × List TokenRow :=
  match txDetails with
  | none => ([.fetched], rows)
  | some txn =>
    if is_new_token_created txn.toJson then
      match extract_new_token_info txn.toJson with
      | none => ([.fetched, .classifiedPos, .extractedNone], rows)
      | some cand =>
        let mint := jsonStrField cand "mint"
        if is_token_processed rows resolvedName mint then
          ([.fetched, .classifiedPos, .extractedSome, .metadataResolved,
            .dedupDuplicate], rows)
        else if !firstBuy then
          ([.fetched, .classifiedPos, .extractedSome, .metadataResolved,
            .notFirstBuySkip], rows)
        else
          ([.fetched, .classifiedPos, .extractedSome, .metadataResolved,
            .committed, .composed, .dispatched],
           mark_token_processed rows resolvedName mint wallet sig now)
    else ([.fetched, .classifiedNeg], rows)

end BotPy

/-- A concrete positive record: one top-level `spl-token`
`initializeAccount` instruction and one positive post-balance. -/
def exLaunchTxn : Txn :=
  ⟨[⟨"spl-token", "initializeAccount", ""⟩], [], [],
   [⟨"M1", some 1000, "1000000000", 6⟩]⟩

/-- A record whose only priority operation is `initializeAccount2`. -/
def exInit2Txn : Txn :=
  ⟨[⟨"spl-token", "initializeAccount2", ""⟩], [], [], []⟩

/-- A negative record: a `system` transfer, balances unchanged in count
and with no positive post amount. -/
def exNegTxn : Txn :=
  ⟨[⟨"system", "transfer", ""⟩], [],
   [⟨"M1", some 1, "1", 0⟩], [⟨"M1", some 0, "0", 0⟩]⟩

/-- A record whose only positive post entry carries a mint already
present in the pre-state balances. -/
def exOldMintTxn : Txn :=
  ⟨[], [], [⟨"M1", some 1, "1", 0⟩], [⟨"M1", some 5, "5", 0⟩]⟩

/-- A record whose only post entry has a novel mint but a zero amount. -/
def exZeroNewTxn : Txn :=
  ⟨[], [], [], [⟨"M2", some 0, "0", 0⟩]⟩

-- characterization lemmas for the scans on encoded records

lemma scanOuter_enc (l : List Instr) :
    BotPy.scanOuter (l.map Instr.toJson) = .ok (l.any outerB) := by
  induction l with
  | nil => rfl
  | cons i rest ih =>
    show (if outerB i then Except.ok true else BotPy.scanOuter (rest.map Instr.toJson))
      = Except.ok ((i :: rest).any outerB)
    cases h : outerB i with
    | true => simp [h]
    | false => simp [h, ih]

lemma scanInnerInstrs_enc (l : List Instr) :
    BotPy.scanInnerInstrs (l.map Instr.toJson) = .ok (l.any innerB) := by
  induction l with
  | nil => rfl
  | cons i rest ih =>
    show (if outerB i then Except.ok true
          else if (i.program == "system") && (i.itype == "createAccount") then
            (if containsSub BotPy.tokenkegAddr.data i.owner.data then Except.ok true
             else BotPy.scanInnerInstrs (rest.map Instr.toJson))
          else BotPy.scanInnerInstrs (rest.map Instr.toJson))
      = Except.ok ((i :: rest).any innerB)
    by_cases h1 : outerB i
    · simp [h1, innerB]
    · cases h2 : (i.program == "system") && (i.itype == "createAccount") with
      | true =>
        by_cases h3 : containsSub BotPy.tokenkegAddr.data i.owner.data
        · simp [h1, h2, h3, innerB, systemB]
        · simp [h1, h2, h3, ih, innerB, systemB]
      | false =>
        have hs : systemB i = false := by simp [systemB, h2]
        simp [h1, h2, ih, innerB, hs]

lemma scanInnerGroups_enc (gs : List (List Instr)) :
    BotPy.scanInnerGroups (gs.map groupToJson)
      = .ok (gs.any (fun g => g.any innerB)) := by
  induction gs with
  | nil => rfl
  | cons g rest ih =>
    show pyBind (BotPy.scanInnerInstrs (g.map Instr.toJson)) (fun hit =>
        if hit then Except.ok true else BotPy.scanInnerGroups (rest.map groupToJson))
      = _
    rw [scanInnerInstrs_enc]
    cases h : g.any innerB with
    | true => simp [pyBind, h]
    | false => simp [pyBind, h, ih]

lemma scanBalances_enc (l : List Balance) :
    BotPy.scanBalances (l.map Balance.toJson) = .ok (l.any balTruthy) := by
  induction l with
  | nil => rfl
  | cons b rest ih =>
    cases hui : b.uiAmount with
    | none =>
      have step : BotPy.scanBalances (b.toJson :: rest.map Balance.toJson)
          = BotPy.scanBalances (rest.map Balance.toJson) := by
        simp [BotPy.scanBalances, Balance.toJson, hui, pyGet, lookupKey, pyBind, pyTruthy]
      rw [List.map_cons, step, ih]
      simp [List.any_cons, balTruthy, hui]
    | some q =>
      have step : BotPy.scanBalances (b.toJson :: rest.map Balance.toJson)
          = if !(q == 0) then
              (if 0 < q then .ok true else BotPy.scanBalances (rest.map Balance.toJson))
            else BotPy.scanBalances (rest.map Balance.toJson) := by
        simp only [BotPy.scanBalances, Balance.toJson, hui, pyGet, lookupKey, pyBind,
          pyTruthy, pyNumVal]
        rfl
      rw [List.map_cons, step]
      by_cases h0 : q == 0
      · simp [h0, ih, List.any_cons, balTruthy, hui]
      · by_cases hp : 0 < q
        · simp [h0, hp, List.any_cons, balTruthy, hui]
        · simp [h0, hp, ih, List.any_cons, balTruthy, hui]
-- master characterizations of the classifiers on encoded records

lemma botClassifier_enc (t : Txn) :
    BotPy.is_new_token_created t.toJson
      = (t.instructions.any outerB
         || t.innerGroups.any (fun g => g.any innerB)
         || decide (t.pre.length < t.post.length)
         || t.post.any balTruthy) := by
  have h0 : BotPy.is_new_token_createdE t.toJson
      = pyBind (BotPy.scanOuter (t.instructions.map Instr.toJson)) (fun hitOuter =>
          if hitOuter then .ok true else
          pyBind (BotPy.scanInnerGroups (t.innerGroups.map groupToJson)) (fun hitInner =>
            if hitInner then .ok true else
            if (t.pre.map Balance.toJson).length < (t.post.map Balance.toJson).length then
              .ok true
            else BotPy.scanBalances (t.post.map Balance.toJson))) := rfl
  unfold BotPy.is_new_token_created
  rw [h0, scanOuter_enc, scanInnerGroups_enc, scanBalances_enc]
  rw [List.length_map, List.length_map]
  cases h1 : t.instructions.any outerB with
  | true => simp [pyBind, pyCatch, h1]
  | false =>
    cases h2 : t.innerGroups.any (fun g => g.any innerB) with
    | true => simp [pyBind, pyCatch, h1, h2]
    | false =>
      by_cases h3 : t.pre.length < t.post.length
      · simp [pyBind, pyCatch, h1, h2, h3]
      · simp [pyBind, pyCatch, h1, h2, h3]

lemma simpleClassifier_enc (t : Txn) :
    pyCatch (SimplePy.simpleClassifierE t.toJson) false
      = (t.instructions.any simpleB
         || t.innerGroups.any (fun g => g.any simpleB)) := by
  have outer : ∀ l : List Instr,
      SimplePy.simpleScanOuter (l.map Instr.toJson) = .ok (l.any simpleB) := by
    intro l
    induction l with
    | nil => rfl
    | cons i rest ih =>
      show (if simpleB i then Except.ok true
            else SimplePy.simpleScanOuter (rest.map Instr.toJson))
        = Except.ok ((i :: rest).any simpleB)
      cases h : simpleB i with
      | true => simp [h]
      | false => simp [h, ih]
  have groups : ∀ gs : List (List Instr),
      SimplePy.simpleScanInnerGroups (gs.map groupToJson)
        = .ok (gs.any (fun g => g.any simpleB)) := by
    intro gs
    induction gs with
    | nil => rfl
    | cons g rest ih =>
      show pyBind (SimplePy.simpleScanOuter (g.map Instr.toJson)) (fun hit =>
          if hit then Except.ok true
          else SimplePy.simpleScanInnerGroups (rest.map groupToJson)) = _
      rw [outer]
      cases h : g.any simpleB with
      | true => simp [pyBind, h]
      | false => simp [pyBind, h, ih]
  have h0 : SimplePy.simpleClassifierE t.toJson
      = pyBind (SimplePy.simpleScanOuter (t.instructions.map Instr.toJson))
          (fun hitOuter =>
            if hitOuter then .ok true else
            SimplePy.simpleScanInnerGroups (t.innerGroups.map groupToJson)) := rfl
  rw [h0, outer, groups]
  cases h1 : t.instructions.any simpleB with
  | true => simp [pyBind, pyCatch, h1]
  | false => simp [pyBind, pyCatch, h1]

lemma extractScan_enc (l : List Balance) :
    BotPy.extractScan (l.map Balance.toJson) = .ok ((l.find? balPos).map candJson) := by
  induction l with
  | nil => rfl
  | cons b rest ih =>
    cases hui : b.uiAmount with
    | none =>
      have step : BotPy.extractScan (b.toJson :: rest.map Balance.toJson)
          = BotPy.extractScan (rest.map Balance.toJson) := by
        simp [BotPy.extractScan, Balance.toJson, hui, pyGet, pyItemStr, lookupKey, pyBind]
      have hb : balPos b = false := by simp [balPos, hui]
      rw [List.map_cons, step, ih, List.find?_cons_of_neg _ (by simp [hb])]
    | some q =>
      have step : BotPy.extractScan (b.toJson :: rest.map Balance.toJson)
          = if 0 < q then
              .ok (some (Json.obj [("mint", .str b.mint), ("amount", .str b.amount),
                ("decimals", .num b.decimals), ("ui_amount", .num q)]))
            else BotPy.extractScan (rest.map Balance.toJson) := by
        simp only [BotPy.extractScan, Balance.toJson, hui, pyGet, pyItemStr, lookupKey,
          pyBind, pyNumVal]
        rfl
      rw [List.map_cons, step]
      by_cases hp : 0 < q
      · have hb : balPos b = true := by simp [balPos, hui, hp]
        rw [List.find?_cons_of_pos _ (by simp [hb])]
        simp [hp, candJson, hui]
      · have hb : balPos b = false := by simp [balPos, hui, hp]
        rw [List.find?_cons_of_neg _ (by simp [hb])]
        simp [hp, ih]

lemma botExtract_enc (t : Txn) :
    BotPy.extract_new_token_info t.toJson = (t.post.find? balPos).map candJson := by
  have h0 : BotPy.extract_new_token_infoE t.toJson
      = BotPy.extractScan (t.post.map Balance.toJson) := rfl
  unfold BotPy.extract_new_token_info
  rw [h0, extractScan_enc]
  rfl
-- characterizations of the stricter extraction variants

lemma collectMints_enc (l : List Balance) :
    NewLaunchBot.collectMints (l.map Balance.toJson)
      = .ok (l.map (fun b => Json.str b.mint)) := by
  induction l with
  | nil => rfl
  | cons b rest ih =>
    show pyBind (Except.ok (Json.str b.mint)) (fun m =>
        pyBind (NewLaunchBot.collectMints (rest.map Balance.toJson)) (fun ms =>
          Except.ok (m :: ms))) = _
    rw [pyBind, ih]
    rfl

lemma memMints_enc (pre : List Balance) (m : String) :
    ((pre.map (fun b => Json.str b.mint)).any (fun e => e.pyEqAtom (.str m)))
      = mintInPre pre ⟨m, none, "", 0⟩ := by
  induction pre with
  | nil => rfl
  | cons p rest ih =>
    simp only [List.map_cons, List.any_cons, ih, mintInPre]
    rfl

lemma nlFirstLoop_cons_null (pre : List Balance) (m a : String) (d : Nat)
    (rest : List Json) :
    NewLaunchBot.nlFirstLoop (pre.map (fun x => Json.str x.mint))
        (Json.obj [("mint", .str m),
          ("uiTokenAmount", .obj [("uiAmount", Json.null), ("amount", .str a),
            ("decimals", .num d)])] :: rest)
      = if (pre.map (fun x => Json.str x.mint)).any
            (fun e => e.pyEqAtom (.str m)) then
          NewLaunchBot.nlFirstLoop (pre.map (fun x => Json.str x.mint)) rest
        else
          NewLaunchBot.nlFirstLoop (pre.map (fun x => Json.str x.mint)) rest := rfl

lemma nlFirstLoop_cons_num (pre : List Balance) (m a : String) (d : Nat) (q : Rat)
    (rest : List Json) :
    NewLaunchBot.nlFirstLoop (pre.map (fun x => Json.str x.mint))
        (Json.obj [("mint", .str m),
          ("uiTokenAmount", .obj [("uiAmount", Json.num q), ("amount", .str a),
            ("decimals", .num d)])] :: rest)
      = if (pre.map (fun x => Json.str x.mint)).any
            (fun e => e.pyEqAtom (.str m)) then
          NewLaunchBot.nlFirstLoop (pre.map (fun x => Json.str x.mint)) rest
        else if 0 < q then
          .ok (some (Json.obj [("mint", .str m), ("amount", .str a),
            ("decimals", .num d), ("ui_amount", .num q)]))
        else
          NewLaunchBot.nlFirstLoop (pre.map (fun x => Json.str x.mint)) rest := rfl

lemma nlFirstLoop_enc (pre : List Balance) (l : List Balance) :
    NewLaunchBot.nlFirstLoop (pre.map (fun b => Json.str b.mint))
        (l.map Balance.toJson)
      = .ok ((l.find? (fun b => !(mintInPre pre b) && balPos b)).map candJson) := by
  induction l with
  | nil => rfl
  | cons b rest ih =>
    have hmem : ((pre.map (fun x => Json.str x.mint)).any
        (fun e => e.pyEqAtom (.str b.mint))) = mintInPre pre b := by
      rw [memMints_enc]; rfl
    cases hui : b.uiAmount with
    | none =>
      have henc : b.toJson = Json.obj [("mint", .str b.mint),
          ("uiTokenAmount", .obj [("uiAmount", Json.null),
            ("amount", .str b.amount), ("decimals", .num b.decimals)])] := by
        rw [Balance.toJson, hui]
      have hb : (!(mintInPre pre b) && balPos b) = false := by simp [balPos, hui]
      rw [List.map_cons, henc, nlFirstLoop_cons_null, hmem, ite_self, ih,
        List.find?_cons_of_neg _ (by simp [hb])]
    | some q =>
      have henc : b.toJson = Json.obj [("mint", .str b.mint),
          ("uiTokenAmount", .obj [("uiAmount", Json.num q),
            ("amount", .str b.amount), ("decimals", .num b.decimals)])] := by
        rw [Balance.toJson, hui]
      rw [List.map_cons, henc, nlFirstLoop_cons_num, hmem]
      by_cases hin : mintInPre pre b
      · have hb : (!(mintInPre pre b) && balPos b) = false := by simp [hin]
        rw [List.find?_cons_of_neg _ (by simp [hb])]
        simp [hin, ih]
      · by_cases hp : 0 < q
        · have hb : (!(mintInPre pre b) && balPos b) = true := by
            simp [hin, balPos, hui, hp]
          rw [List.find?_cons_of_pos _ (by simp [hb])]
          simp [hin, hp, candJson, hui]
        · have hb : (!(mintInPre pre b) && balPos b) = false := by
            simp [balPos, hui, hp]
          rw [List.find?_cons_of_neg _ (by simp [hb])]
          simp [hin, hp, ih]

lemma nlExtract_enc (t : Txn) :
    NewLaunchBot.extract_new_token_info t.toJson
      = (match t.post.find? (fun b => !(mintInPre t.pre b) && balPos b) with
         | some b => some (candJson b)
         | none => (t.post.find? balPos).map candJson) := by
  have h0 : NewLaunchBot.extract_new_token_infoE t.toJson
      = pyBind (NewLaunchBot.collectMints (t.pre.map Balance.toJson)) (fun existing =>
          pyBind (NewLaunchBot.nlFirstLoop existing (t.post.map Balance.toJson)) (fun r =>
            match r with
            | some c => .ok (some c)
            | none => BotPy.extractScan (t.post.map Balance.toJson))) := rfl
  unfold NewLaunchBot.extract_new_token_info
  rw [h0, collectMints_enc]
  show pyCatch (pyBind (NewLaunchBot.nlFirstLoop (t.pre.map (fun b => Json.str b.mint))
    (t.post.map Balance.toJson)) _) none = _
  rw [nlFirstLoop_enc, extractScan_enc]
  cases h : t.post.find? (fun b => !(mintInPre t.pre b) && balPos b) with
  | none => simp [pyBind, pyCatch, h]
  | some b => simp [pyBind, pyCatch, h]

lemma head?_filter {α : Type} (p : α → Bool) (l : List α) :
    (l.filter p).head? = l.find? p := by
  induction l with
  | nil => rfl
  | cons a rest ih =>
    cases h : p a with
    | true =>
      rw [List.filter_cons_of_pos h, List.find?_cons_of_pos _ h]
      rfl
    | false =>
      rw [List.filter_cons_of_neg (by simp [h]), List.find?_cons_of_neg _ (by simp [h])]
      exact ih

lemma fbLoop_cons (pre : List Balance) (b : Balance) (rest : List Json) :
    FinalBot.fbExtractLoop (pre.map (fun x => Json.str x.mint))
        (b.toJson :: rest)
      = if (pre.map (fun x => Json.str x.mint)).any
            (fun e => e.pyEqAtom (.str b.mint)) then
          FinalBot.fbExtractLoop (pre.map (fun x => Json.str x.mint)) rest
        else
          pyBind (FinalBot.fbExtractLoop (pre.map (fun x => Json.str x.mint)) rest)
            (fun restL => .ok (candJson3 b :: restL)) := rfl

lemma fbLoop_enc (pre : List Balance) (l : List Balance) :
    FinalBot.fbExtractLoop (pre.map (fun b => Json.str b.mint))
        (l.map Balance.toJson)
      = .ok ((l.filter (fun b => !(mintInPre pre b))).map candJson3) := by
  induction l with
  | nil => rfl
  | cons b rest ih =>
    have hmem : ((pre.map (fun x => Json.str x.mint)).any
        (fun e => e.pyEqAtom (.str b.mint))) = mintInPre pre b := by
      rw [memMints_enc]; rfl
    rw [List.map_cons, fbLoop_cons, hmem]
    by_cases hin : mintInPre pre b
    · rw [if_pos hin, ih, List.filter_cons_of_neg (by simp [hin])]
    · rw [if_neg hin, ih, List.filter_cons_of_pos (by simp [hin])]
      rfl

lemma fbExtract_enc (t : Txn) :
    FinalBot.extract_token_info t.toJson
      = (t.post.find? (fun b => !(mintInPre t.pre b))).map candJson3 := by
  have h0 : FinalBot.extract_token_infoE t.toJson
      = pyBind (NewLaunchBot.collectMints (t.pre.map Balance.toJson)) (fun existing =>
          pyBind (FinalBot.fbExtractLoop existing (t.post.map Balance.toJson))
            (fun newTokens => .ok newTokens.head?)) := rfl
  unfold FinalBot.extract_token_info
  rw [h0, collectMints_enc]
  show pyCatch (pyBind (FinalBot.fbExtractLoop (t.pre.map (fun b => Json.str b.mint))
    (t.post.map Balance.toJson)) _) none = _
  rw [fbLoop_enc]
  show ((t.post.filter (fun b => !(mintInPre t.pre b))).map candJson3).head? = _
  rw [List.head?_map, head?_filter]
-- pipeline lemmas for the per-signature state machine

lemma is_token_processed_mark (rows : List BotPy.TokenRow) (n m w s : String)
    (now : Int) :
    BotPy.is_token_processed (BotPy.mark_token_processed rows n m w s now) n m
      = true := by
  unfold BotPy.is_token_processed BotPy.mark_token_processed
  rw [List.countP_append]
  have h1 : List.countP (BotPy.rowKeyIs n m) [⟨n, m, w, s, now⟩] = 1 := by
    simp [List.countP_cons, BotPy.rowKeyIs]
  rw [h1]
  simp

lemma processSignature_dispatched (tx : Option Txn) (rows : List BotPy.TokenRow)
    (name : String) (fb : Bool) (w s : String) (now : Int)
    (h : BotPy.PipeEvent.dispatched ∈ (BotPy.processSignature tx rows name fb w s now).1) :
    ∃ txn cand, tx = some txn
      ∧ BotPy.is_new_token_created txn.toJson = true
      ∧ BotPy.extract_new_token_info txn.toJson = some cand
      ∧ BotPy.is_token_processed rows name (BotPy.jsonStrField cand "mint") = false
      ∧ fb = true
      ∧ (BotPy.processSignature tx rows name fb w s now).1
          = [.fetched, .classifiedPos, .extractedSome, .metadataResolved,
             .committed, .composed, .dispatched]
      ∧ (BotPy.processSignature tx rows name fb w s now).2
          = BotPy.mark_token_processed rows name
              (BotPy.jsonStrField cand "mint") w s now := by
  cases tx with
  | none => simp [BotPy.processSignature] at h
  | some txn =>
    by_cases h1 : BotPy.is_new_token_created txn.toJson
    · cases h2 : BotPy.extract_new_token_info txn.toJson with
      | none => simp [BotPy.processSignature, h1, h2] at h
      | some cand =>
        by_cases h3 : BotPy.is_token_processed rows name
            (BotPy.jsonStrField cand "mint")
        · simp [BotPy.processSignature, h1, h2, h3] at h
        · cases fb with
          | false => simp [BotPy.processSignature, h1, h2, h3] at h
          | true =>
            refine ⟨txn, cand, rfl, by simpa using h1, h2,
              by simpa using h3, rfl, ?_, ?_⟩
            · simp [BotPy.processSignature, h1, h2, h3]
            · simp [BotPy.processSignature, h1, h2, h3]
    · simp [BotPy.processSignature, h1] at h

lemma processSignature_duplicate (tx : Option Txn) (rows : List BotPy.TokenRow)
    (name : String) (fb : Bool) (w s : String) (now : Int) (txn : Txn) (cand : Json)
    (he : tx = some txn)
    (h1 : BotPy.is_new_token_created txn.toJson = true)
    (h2 : BotPy.extract_new_token_info txn.toJson = some cand)
    (h3 : BotPy.is_token_processed rows name (BotPy.jsonStrField cand "mint") = true) :
    (BotPy.processSignature tx rows name fb w s now).1
      = [.fetched, .classifiedPos, .extractedSome, .metadataResolved,
         .dedupDuplicate] := by
  subst he
  simp [BotPy.processSignature, h1, h2, h3]
-- claim C1

/-- C1: Dedup ledger round-trip and at-most-once.  After the first
insert of a key the existence check returns true; when the key was
absent, the test-and-set reports a fresh insert once and `false` on the
repeat, leaving exactly one row; and a second run of the per-signature
pipeline on the ledger state committed by a dispatching first run
produces no second dispatch. -/
theorem C1_dedup_round_trip (db : List String) (m : String) :
    MainPy.token_exists (MainPy.save_token db m) m = true
    ∧ (MainPy.token_exists db m = false →
        (MainPy.insert_if_absent db m).1 = true
        ∧ (MainPy.insert_if_absent (MainPy.insert_if_absent db m).2 m).1 = false
        ∧ (MainPy.save_token (MainPy.save_token db m) m).count m = 1)
    ∧ (∀ (tx : Option Txn) (rows : List BotPy.TokenRow) (name : String)
        (fb : Bool) (w s : String) (now : Int),
        BotPy.PipeEvent.dispatched ∈ (BotPy.processSignature tx rows name fb w s now).1 →
        BotPy.PipeEvent.dispatched ∉
          (BotPy.processSignature tx (BotPy.processSignature tx rows name fb w s now).2
            name fb w s now).1) := by
  have hexists : MainPy.token_exists (MainPy.save_token db m) m = true := by
    unfold MainPy.token_exists MainPy.save_token
    by_cases h : db.contains m
    · rw [if_pos h]; exact h
    · rw [if_neg h]; simp
  refine ⟨hexists, ?_, ?_⟩
  · intro habs
    unfold MainPy.token_exists at habs
    have hmem : ¬ m ∈ db := by simpa using habs
    have hsave : MainPy.save_token db m = db ++ [m] := by
      unfold MainPy.save_token
      rw [if_neg (by simpa using hmem)]
    have hsave2 : MainPy.save_token (db ++ [m]) m = db ++ [m] := by
      unfold MainPy.save_token
      rw [if_pos (by simp)]
    refine ⟨?_, ?_, ?_⟩
    · simp only [MainPy.insert_if_absent, MainPy.token_exists]
      rw [habs]
      rfl
    · simp [MainPy.insert_if_absent, hexists]
    · rw [hsave, hsave2, List.count_append, List.count_eq_zero.2 hmem]
      simp
  · intro tx rows name fb w s now h
    obtain ⟨txn, cand, he, h1, h2, h3, hfb, hevs, hsnd⟩ :=
      processSignature_dispatched tx rows name fb w s now h
    rw [hsnd]
    rw [processSignature_duplicate _ _ name fb w s now txn cand he h1 h2
      (is_token_processed_mark rows name (BotPy.jsonStrField cand "mint") w s now)]
    decide

/-- Witness for C1 at a concrete ledger and pipeline input. -/
theorem C1_dedup_round_trip_witness :
    ((MainPy.insert_if_absent [] "M1").1 = true
      ∧ (MainPy.insert_if_absent (MainPy.insert_if_absent [] "M1").2 "M1").1 = false
      ∧ (MainPy.save_token (MainPy.save_token [] "M1") "M1").count "M1" = 1)
    ∧ BotPy.PipeEvent.dispatched ∈
        (BotPy.processSignature (some exLaunchTxn) [] "Tok" true "W" "S" 0).1
    ∧ BotPy.PipeEvent.dispatched ∉
        (BotPy.processSignature (some exLaunchTxn)
          (BotPy.processSignature (some exLaunchTxn) [] "Tok" true "W" "S" 0).2
          "Tok" true "W" "S" 0).1 :=
  ⟨(C1_dedup_round_trip [] "M1").2.1 (by decide),
   by decide,
   (C1_dedup_round_trip [] "M1").2.2 (some exLaunchTxn) [] "Tok" true "W" "S" 0
     (by decide)⟩
-- claim C2

lemma outerB_of_priority (i : Instr) (hp : i.program = "spl-token")
    (hty : i.itype ∈ BotPy.priority_token_types) : outerB i = true := by
  unfold outerB BotPy.instrMatch
  have h1 : Json.eqStr (.str i.program) "spl-token" = true := by
    simp [Json.eqStr, hp]
  have h2 : BotPy.priority_token_types.any
      (fun s => Json.eqStr (.str i.itype) s) = true := by
    rw [List.any_eq_true]
    exact ⟨i.itype, hty, by simp [Json.eqStr]⟩
  simp [h1, h2]

lemma simpleB_of_four (i : Instr) (hp : i.program = "spl-token")
    (hty : i.itype ∈ (["createAccount", "createTokenAccount",
      "initializeAccount", "initializeAccount3"] : List String)) :
    simpleB i = true := by
  unfold simpleB SimplePy.simpleMatch
  have h1 : Json.eqStr (.str i.program) "spl-token" = true := by
    simp [Json.eqStr, hp]
  have h2 : (["createAccount", "createTokenAccount", "initializeAccount",
      "initializeAccount3"] : List String).any
      (fun s => Json.eqStr (.str i.itype) s) = true := by
    rw [List.any_eq_true]
    exact ⟨i.itype, hty, by simp [Json.eqStr]⟩
  simp [h1, h2]

lemma anyInstr_of_mem {p : Instr → Bool} (t : Txn) (i : Instr)
    (hi : i ∈ t.allInstrList) (hp : p i = true) :
    (t.instructions.any p || t.innerGroups.any (fun g => g.any p)) = true := by
  unfold Txn.allInstrList at hi
  rcases List.mem_append.1 hi with h | h
  · have : t.instructions.any p = true := List.any_eq_true.2 ⟨i, h, hp⟩
    simp [this]
  · obtain ⟨g, hg, hig⟩ := List.mem_flatten.1 h
    have : t.innerGroups.any (fun g => g.any p) = true :=
      List.any_eq_true.2 ⟨g, hg, List.any_eq_true.2 ⟨i, hig, hp⟩⟩
    simp [this]

/-- C2 (amended): every record containing one of the five priority
account-creation operations on `spl-token` classifies positive under the
`bot.py` classifier; the `m.py`/`new_launch_bot.py` variant guarantees
this only for its four-element priority set, which omits
`initializeAccount2`. -/
theorem C2_priority_positive (t : Txn) :
    ((∃ i ∈ t.allInstrList, i.program = "spl-token"
        ∧ i.itype ∈ BotPy.priority_token_types) →
      BotPy.is_new_token_created t.toJson = true)
    ∧ ((∃ i ∈ t.allInstrList, i.program = "spl-token"
        ∧ i.itype ∈ (["createAccount", "createTokenAccount",
            "initializeAccount", "initializeAccount3"] : List String)) →
      MPy.is_new_token_created t.toJson = true
      ∧ NewLaunchBot.is_new_token_launch t.toJson = true) := by
  constructor
  · rintro ⟨i, hi, hp, hty⟩
    rw [botClassifier_enc]
    unfold Txn.allInstrList at hi
    rcases List.mem_append.1 hi with h | h
    · have hx : t.instructions.any outerB = true :=
        List.any_eq_true.2 ⟨i, h, outerB_of_priority i hp hty⟩
      simp [hx]
    · obtain ⟨g, hg, hig⟩ := List.mem_flatten.1 h
      have hx : t.innerGroups.any (fun g => g.any innerB) = true :=
        List.any_eq_true.2 ⟨g, hg, List.any_eq_true.2 ⟨i, hig, by
          unfold innerB
          rw [outerB_of_priority i hp hty]
          rfl⟩⟩
      simp [hx]
  · rintro ⟨i, hi, hp, hty⟩
    have hm : MPy.is_new_token_created t.toJson
        = (t.instructions.any simpleB
           || t.innerGroups.any (fun g => g.any simpleB)) :=
      simpleClassifier_enc t
    have hn : NewLaunchBot.is_new_token_launch t.toJson
        = (t.instructions.any simpleB
           || t.innerGroups.any (fun g => g.any simpleB)) :=
      simpleClassifier_enc t
    rw [hm, hn]
    have hx := anyInstr_of_mem (p := simpleB) t i hi (simpleB_of_four i hp hty)
    exact ⟨hx, hx⟩

/-- C2 counterexample: a record whose only priority operation is
`initializeAccount2` classifies negative under the `m.py` and
`new_launch_bot.py` classifiers, refuting the claim as stated for those
cited implementations. -/
theorem C2_counterexample :
    (∃ i ∈ exInit2Txn.allInstrList, i.program = "spl-token"
      ∧ i.itype ∈ BotPy.priority_token_types)
    ∧ MPy.is_new_token_created exInit2Txn.toJson = false
    ∧ NewLaunchBot.is_new_token_launch exInit2Txn.toJson = false := by
  decide

/-- Witness for C2 at a concrete record containing `initializeAccount`. -/
theorem C2_priority_positive_witness :
    BotPy.is_new_token_created exLaunchTxn.toJson = true
    ∧ MPy.is_new_token_created exLaunchTxn.toJson = true :=
  ⟨(C2_priority_positive exLaunchTxn).1 (by decide),
   ((C2_priority_positive exLaunchTxn).2 (by decide)).1⟩
-- claim C3

lemma noTokenProg_parts (i : Instr) (h : i.hasTokenProgramId = false) :
    (i.program == "spl-token") = false
    ∧ (i.program == "spl-associated-token-account") = false
    ∧ containsSub BotPy.tokenkegAddr.data i.owner.data = false := by
  unfold Instr.hasTokenProgramId at h
  simp only [Bool.or_eq_false_iff] at h
  exact ⟨h.1.1, h.1.2, h.2⟩

lemma outerB_eq_false (i : Instr) (h : i.hasTokenProgramId = false) :
    outerB i = false := by
  obtain ⟨h1, h2, _⟩ := noTokenProg_parts i h
  simp [outerB, BotPy.instrMatch, Json.eqStr, h1, h2]

lemma innerB_eq_false (i : Instr) (h : i.hasTokenProgramId = false) :
    innerB i = false := by
  obtain ⟨h1, h2, h3⟩ := noTokenProg_parts i h
  have ho := outerB_eq_false i h
  simp [innerB, systemB, ho, h3]

lemma simpleB_eq_false (i : Instr) (h : i.hasTokenProgramId = false) :
    simpleB i = false := by
  obtain ⟨h1, h2, _⟩ := noTokenProg_parts i h
  simp [simpleB, SimplePy.simpleMatch, Json.eqStr, h1, h2]

lemma balTruthy_eq_false (b : Balance) (h : balPos b = false) :
    balTruthy b = false := by
  unfold balPos at h
  unfold balTruthy
  cases hui : b.uiAmount with
  | none => rfl
  | some q =>
    rw [hui] at h
    have hq : decide (0 < q) = false := by simpa using h
    show (!q == 0 && decide (0 < q)) = false
    rw [hq]
    simp

/-- C3: a record in which no instruction (top-level or inner) carries a
token-program identifier, whose post-state balance list is not longer
than its pre-state list, and in which no post-state entry has a positive
ui amount, classifies negative under both the `bot.py` classifier and
the `new_launch_bot.py` classifier. -/
theorem C3_no_token_program_negative (t : Txn)
    (hinstr : ∀ i ∈ t.allInstrList, i.hasTokenProgramId = false)
    (hlen : t.post.length ≤ t.pre.length)
    (hbal : ∀ b ∈ t.post, balPos b = false) :
    BotPy.is_new_token_created t.toJson = false
    ∧ NewLaunchBot.is_new_token_launch t.toJson = false := by
  have houter : t.instructions.any outerB = false := by
    rw [List.any_eq_false]
    intro i hi
    simp [outerB_eq_false i (hinstr i (List.mem_append_left _ hi))]
  have hinner : t.innerGroups.any (fun g => g.any innerB) = false := by
    rw [List.any_eq_false]
    intro g hg
    rw [Bool.not_eq_true, List.any_eq_false]
    intro i hi
    simp [innerB_eq_false i
      (hinstr i (List.mem_append_right _ (List.mem_flatten.2 ⟨g, hg, hi⟩)))]
  have hsimpleO : t.instructions.any simpleB = false := by
    rw [List.any_eq_false]
    intro i hi
    simp [simpleB_eq_false i (hinstr i (List.mem_append_left _ hi))]
  have hsimpleI : t.innerGroups.any (fun g => g.any simpleB) = false := by
    rw [List.any_eq_false]
    intro g hg
    rw [Bool.not_eq_true, List.any_eq_false]
    intro i hi
    simp [simpleB_eq_false i
      (hinstr i (List.mem_append_right _ (List.mem_flatten.2 ⟨g, hg, hi⟩)))]
  have hlt : decide (t.pre.length < t.post.length) = false :=
    decide_eq_false (Nat.not_lt.2 hlen)
  have hbt : t.post.any balTruthy = false := by
    rw [List.any_eq_false]
    intro b hb
    simp [balTruthy_eq_false b (hbal b hb)]
  constructor
  · rw [botClassifier_enc, houter, hinner, hlt, hbt]
    rfl
  · have hn : NewLaunchBot.is_new_token_launch t.toJson
        = (t.instructions.any simpleB
           || t.innerGroups.any (fun g => g.any simpleB)) :=
      simpleClassifier_enc t
    rw [hn, hsimpleO, hsimpleI]
    rfl

/-- Witness for C3 at a concrete record: a lone `system` transfer with
unchanged balance count and no positive post amount. -/
theorem C3_no_token_program_negative_witness :
    BotPy.is_new_token_created exNegTxn.toJson = false
    ∧ NewLaunchBot.is_new_token_launch exNegTxn.toJson = false :=
  C3_no_token_program_negative exNegTxn (by decide) (by decide) (by decide)
-- claim C4

/-- C4: the classifiers are total on arbitrary JSON-like input.  In the
embedding every function is total by construction; the content is that
any raised error inside the `try` body yields verdict `false` (the
`except` path), that `None` and records missing the `transaction` key
classify negative, and that extraction on a record missing the `meta`
key yields no candidate rather than raising. -/
theorem C4_classifier_total (t : Json) :
    ((∃ e, BotPy.is_new_token_createdE t = .error e) →
      BotPy.is_new_token_created t = false)
    ∧ ((∃ e, FinalBot.is_new_token_createdE t = .error e) →
      FinalBot.is_new_token_created t = false)
    ∧ BotPy.is_new_token_created Json.null = false
    ∧ FinalBot.is_new_token_created Json.null = false
    ∧ (∀ o, lookupKey o "transaction" = none →
        BotPy.is_new_token_created (Json.obj o) = false
        ∧ FinalBot.is_new_token_created (Json.obj o) = false)
    ∧ (∀ o, lookupKey o "meta" = none →
        BotPy.extract_new_token_info (Json.obj o) = none) := by
  refine ⟨?_, ?_, rfl, rfl, ?_, ?_⟩
  · rintro ⟨e, he⟩
    unfold BotPy.is_new_token_created
    rw [he]
    rfl
  · rintro ⟨e, he⟩
    unfold FinalBot.is_new_token_created
    rw [he]
    rfl
  · intro o ho
    constructor
    · have hb : BotPy.is_new_token_createdE (Json.obj o) = .ok false := by
        unfold BotPy.is_new_token_createdE
        by_cases hemp : o.isEmpty
        · simp [pyTruthy, hemp]
        · simp [pyTruthy, hemp, pyInStr, ho, pyBind]
      unfold BotPy.is_new_token_created
      rw [hb]
      rfl
    · have hf : FinalBot.is_new_token_createdE (Json.obj o) = .ok false := by
        unfold FinalBot.is_new_token_createdE
        by_cases hemp : o.isEmpty
        · simp [pyTruthy, hemp]
        · simp [pyTruthy, hemp, pyInStr, ho, pyBind]
      unfold FinalBot.is_new_token_created
      rw [hf]
      rfl
  · intro o ho
    have hx : BotPy.extract_new_token_infoE (Json.obj o) = .ok none := by
      unfold BotPy.extract_new_token_infoE
      by_cases hemp : o.isEmpty
      · simp [pyTruthy, hemp]
      · simp [pyTruthy, hemp, pyInStr, ho, pyBind]
    unfold BotPy.extract_new_token_info
    rw [hx]
    rfl

/-- Witness for C4: a list input makes both `try` bodies raise (and
classify negative); an object with neither `transaction` nor `meta`
classifies negative and extracts nothing. -/
theorem C4_classifier_total_witness :
    BotPy.is_new_token_created (Json.arr [Json.str "transaction"]) = false
    ∧ FinalBot.is_new_token_created (Json.arr [Json.str "transaction"]) = false
    ∧ BotPy.is_new_token_created (Json.obj [("slot", Json.num 1)]) = false
    ∧ FinalBot.is_new_token_created (Json.obj [("slot", Json.num 1)]) = false
    ∧ BotPy.extract_new_token_info (Json.obj [("slot", Json.num 1)]) = none :=
  ⟨(C4_classifier_total (Json.arr [Json.str "transaction"])).1 ⟨(), rfl⟩,
   (C4_classifier_total (Json.arr [Json.str "transaction"])).2.1 ⟨(), rfl⟩,
   ((C4_classifier_total Json.null).2.2.2.2.1 [("slot", Json.num 1)] rfl).1,
   ((C4_classifier_total Json.null).2.2.2.2.1 [("slot", Json.num 1)] rfl).2,
   (C4_classifier_total Json.null).2.2.2.2.2 [("slot", Json.num 1)] rfl⟩
-- claims C5, C6, C7

/-- C5: candidate extraction returns the first post-state entry (in
record order) with a strictly positive ui amount, packaged with its
mint, raw amount string and decimals; with no positive entry it returns
`None`; and every returned candidate has a positive ui amount. -/
theorem C5_extract_first_positive (t : Txn) :
    BotPy.extract_new_token_info t.toJson = (t.post.find? balPos).map candJson
    ∧ ((∀ b ∈ t.post, balPos b = false) →
        BotPy.extract_new_token_info t.toJson = none)
    ∧ (∀ c, BotPy.extract_new_token_info t.toJson = some c →
        ∃ b ∈ t.post, balPos b = true ∧ c = candJson b) := by
  have h := botExtract_enc t
  refine ⟨h, ?_, ?_⟩
  · intro hall
    rw [h, List.find?_eq_none.2 (fun b hb => by simp [hall b hb])]
    rfl
  · intro c hc
    rw [h] at hc
    cases hf : t.post.find? balPos with
    | none => rw [hf] at hc; exact absurd hc (fun hx => by cases hx)
    | some b =>
      rw [hf] at hc
      rw [show Option.map candJson (some b) = some (candJson b) from rfl] at hc
      exact ⟨b, List.mem_of_find?_eq_some hf, List.find?_some hf,
        (Option.some.inj hc).symm⟩

/-- Witness for C5: no positive entry yields no candidate; the launch
record yields its first positive entry. -/
theorem C5_extract_first_positive_witness :
    BotPy.extract_new_token_info exNegTxn.toJson = none
    ∧ ∃ b ∈ exLaunchTxn.post, balPos b = true
        ∧ candJson ⟨"M1", some 1000, "1000000000", 6⟩ = candJson b :=
  ⟨(C5_extract_first_positive exNegTxn).2.1 (by decide),
   (C5_extract_first_positive exLaunchTxn).2.2
     (candJson ⟨"M1", some 1000, "1000000000", 6⟩) rfl⟩

/-- C6 counterexample: `exOldMintTxn` has every positive post-state mint
already present in the pre-state, yet `new_launch_bot.py`'s extraction
returns a candidate (its fallback loop); and `final_bot.py`'s variant
returns a zero-amount novel mint.  This refutes the claim that the
stricter extraction yields no candidate whenever every positive
post-state mint already appears pre-state. -/
theorem C6_counterexample :
    (∀ b ∈ exOldMintTxn.post, balPos b = true → mintInPre exOldMintTxn.pre b = true)
    ∧ NewLaunchBot.extract_new_token_info exOldMintTxn.toJson
        = some (candJson ⟨"M1", some 5, "5", 0⟩)
    ∧ (∀ b ∈ exZeroNewTxn.post, balPos b = true → mintInPre exZeroNewTxn.pre b = true)
    ∧ FinalBot.extract_token_info exZeroNewTxn.toJson
        = some (candJson3 ⟨"M2", some 0, "0", 0⟩) :=
  ⟨by decide, rfl, by decide, rfl⟩

/-- C6 (amended): `new_launch_bot.py`'s extraction prefers the first
novel positive entry but falls back to the first positive entry of any
mint, so it yields no candidate exactly on records with no positive
post entry; `final_bot.py`'s variant returns the first novel-mint entry
regardless of amount, yielding no candidate when every post mint
already appears pre-state. -/
theorem C6_strict_extraction (t : Txn) :
    NewLaunchBot.extract_new_token_info t.toJson
      = (match t.post.find? (fun b => !(mintInPre t.pre b) && balPos b) with
         | some b => some (candJson b)
         | none => (t.post.find? balPos).map candJson)
    ∧ FinalBot.extract_token_info t.toJson
      = (t.post.find? (fun b => !(mintInPre t.pre b))).map candJson3
    ∧ ((∀ b ∈ t.post, balPos b = false) →
        NewLaunchBot.extract_new_token_info t.toJson = none)
    ∧ ((∀ b ∈ t.post, mintInPre t.pre b = true) →
        FinalBot.extract_token_info t.toJson = none) := by
  refine ⟨nlExtract_enc t, fbExtract_enc t, ?_, ?_⟩
  · intro hall
    rw [nlExtract_enc t,
      List.find?_eq_none.2 (fun b hb => by simp [hall b hb]),
      List.find?_eq_none.2 (fun b hb => by simp [hall b hb])]
    rfl
  · intro hall
    rw [fbExtract_enc t,
      List.find?_eq_none.2 (fun b hb => by simp [hall b hb])]
    rfl

/-- Witness for C6 at concrete records. -/
theorem C6_strict_extraction_witness :
    NewLaunchBot.extract_new_token_info exNegTxn.toJson = none
    ∧ FinalBot.extract_token_info exOldMintTxn.toJson = none :=
  ⟨(C6_strict_extraction exNegTxn).2.2.1 (by decide),
   (C6_strict_extraction exOldMintTxn).2.2.2 (by decide)⟩

/-- C7: the pruning sweep with cutoff `now - days * 86400` (default
`days_to_keep = 7`) removes exactly the rows strictly older than the
cutoff, leaving every other row in place unchanged, in both the
`processed_tokens` and `processed_signatures` tables. -/
theorem C7_prune_retention (tokens : List BotPy.TokenRow)
    (sigs : List BotPy.SigRow) (now : Int) (days : Nat) :
    BotPy.default_days_to_keep = 7
    ∧ (∀ r : BotPy.TokenRow,
        r ∈ (BotPy.cleanup_old_entries tokens sigs
              (BotPy.retentionCutoff now days)).1
          ↔ r ∈ tokens ∧ ¬(r.detected_at < BotPy.retentionCutoff now days))
    ∧ (∀ r : BotPy.SigRow,
        r ∈ (BotPy.cleanup_old_entries tokens sigs
              (BotPy.retentionCutoff now days)).2
          ↔ r ∈ sigs ∧ ¬(r.processed_at < BotPy.retentionCutoff now days)) := by
  refine ⟨rfl, ?_, ?_⟩ <;> intro r <;>
    simp [BotPy.cleanup_old_entries, List.mem_filter]

/-- Witness for C7: with the 7-day horizon, a row first seen at time 0
is pruned at `now = 864000` while a row from time 700000 is retained. -/
theorem C7_prune_retention_witness :
    (⟨"T", "M", "W", "S", 0⟩ : BotPy.TokenRow) ∉
      (BotPy.cleanup_old_entries [⟨"T", "M", "W", "S", 0⟩] []
        (BotPy.retentionCutoff 864000 7)).1
    ∧ (⟨"T2", "M2", "W", "S", 700000⟩ : BotPy.TokenRow) ∈
      (BotPy.cleanup_old_entries [⟨"T2", "M2", "W", "S", 700000⟩] []
        (BotPy.retentionCutoff 864000 7)).1 := by
  constructor
  · intro hmem
    have h := ((C7_prune_retention [⟨"T", "M", "W", "S", 0⟩] [] 864000 7).2.1 _).1 hmem
    exact absurd h.2 (by decide)
  · exact ((C7_prune_retention [⟨"T2", "M2", "W", "S", 700000⟩] [] 864000 7).2.1 _).2
      ⟨by decide, by decide⟩
-- claims C8, C9, C10

/-- C8 counterexample: on a concrete positive record the per-signature
pipeline of `bot.py` commits the dedup row strictly BEFORE dispatching
the alert, refuting the claim that Dispatched precedes Committed. -/
theorem C8_counterexample :
    BotPy.PipeEvent.dispatched ∈
      (BotPy.processSignature (some exLaunchTxn) [] "Tok" true "W" "S" 0).1
    ∧ (BotPy.processSignature (some exLaunchTxn) [] "Tok" true "W" "S" 0).1.indexOf
        BotPy.PipeEvent.committed
      < (BotPy.processSignature (some exLaunchTxn) [] "Tok" true "W" "S" 0).1.indexOf
        BotPy.PipeEvent.dispatched := by
  decide

/-- C8 (amended): in every run of the per-signature pipeline that
dispatches an alert, the dedup-ledger commit occurs, and it occurs
strictly before the dispatch (Committed precedes Dispatched), the
reverse of the claimed order. -/
theorem C8_commit_before_dispatch (tx : Option Txn) (rows : List BotPy.TokenRow)
    (name : String) (fb : Bool) (w s : String) (now : Int)
    (h : BotPy.PipeEvent.dispatched ∈
      (BotPy.processSignature tx rows name fb w s now).1) :
    BotPy.PipeEvent.committed ∈ (BotPy.processSignature tx rows name fb w s now).1
    ∧ (BotPy.processSignature tx rows name fb w s now).1.indexOf
        BotPy.PipeEvent.committed
      < (BotPy.processSignature tx rows name fb w s now).1.indexOf
        BotPy.PipeEvent.dispatched := by
  obtain ⟨txn, cand, he, h1, h2, h3, hfb, hevs, hsnd⟩ :=
    processSignature_dispatched tx rows name fb w s now h
  rw [hevs]
  exact ⟨by decide, by decide⟩

/-- Witness for C8 at a concrete pipeline run. -/
theorem C8_commit_before_dispatch_witness :
    BotPy.PipeEvent.committed ∈
      (BotPy.processSignature (some exLaunchTxn) [] "N" true "W2" "S2" 5).1
    ∧ (BotPy.processSignature (some exLaunchTxn) [] "N" true "W2" "S2" 5).1.indexOf
        BotPy.PipeEvent.committed
      < (BotPy.processSignature (some exLaunchTxn) [] "N" true "W2" "S2" 5).1.indexOf
        BotPy.PipeEvent.dispatched :=
  C8_commit_before_dispatch (some exLaunchTxn) [] "N" true "W2" "S2" 5 (by decide)

/-- C9: a storage-layer error on a dedup-ledger read degrades to "treat
as not present": when the count query (or the table probe) raises, the
membership tests return `false` instead of propagating, while a
successful count reports membership exactly when a row matched. -/
theorem C9_ledger_read_degrades :
    (∀ e : Unit, BotPyDb.is_token_processed (.error e) = false)
    ∧ (∀ n : Nat, BotPyDb.is_token_processed (.ok n) = decide (0 < n))
    ∧ (∀ (e : Unit) (q : Except Unit Nat),
        BotPyDb.is_signature_processed (.error e) q = false)
    ∧ (∀ e : Unit, BotPyDb.is_signature_processed (.ok true) (.error e) = false) :=
  ⟨fun _ => rfl, fun _ => rfl, fun _ _ => rfl, fun _ => rfl⟩

/-- C10: `format_amount "1500000" 6` renders `"1.5"` (six fixed decimals
with trailing zeros and the trailing decimal point stripped), and any
amount string that does not parse as a Python integer is returned
unchanged instead of raising. -/
theorem C10_format_amount :
    BotPy.format_amount "1500000" 6 = "1.5"
    ∧ (∀ (s : String) (d : Nat), pyParseInt s = none →
        BotPy.format_amount s d = s) := by
  constructor
  · rfl
  · intro s d h
    unfold BotPy.format_amount
    rw [h]

/-- Witness for C10: a non-numeric string is returned unchanged. -/
theorem C10_format_amount_witness :
    BotPy.format_amount "abc" 6 = "abc" :=
  C10_format_amount.2 "abc" 6 rfl
